import Mathlib

/-!
Shallow embedding of the MetaPilot condition-monitoring / queueing / execution
pipeline.

Sources embedded here:
* `BlockchainService.isETHTransferConditionMet` (backend/src/services/BlockchainService.ts)
* `TaskMonitorProcessor.monitorTaskConditions` and its helper
  `handleETHTransferCondition` (backend/src/processors/TaskMonitorProcessor.ts)
* `TaskExecutionProcessor.executeTask` (backend/src/processors/TaskExecutionProcessor.ts)
* `scheduler.scheduleTask` (src/services/scheduler.provider.ts of the
  meta-pilot-backend sub-project)

Conventions: TypeScript BigInt values become `Int` (both are exact integers);
timestamps are `Int` milliseconds since the epoch; a TypeScript call that can
throw is modelled with `Except String`; JavaScript string enums stay `String`.
-/

namespace MetaPilot

/-- Price condition parameters of a task (field `priceCondition` in the Task
model). The source field `type` holds the comparison direction as a string,
normally "above" or "below". `referencePrice` is captured at task creation;
the evaluator reads it but never uses it in a comparison. -/
structure PriceCondition where
  type : String
  priceThreshold : Int
  referencePrice : Option Int
deriving Repr, DecidableEq

/-- Balance condition parameters (field `balanceCondition`). -/
structure BalanceCondition where
  type : String
  balanceThreshold : Int
deriving Repr, DecidableEq

/-- Gas price condition parameters (field `gasPriceCondition`). -/
structure GasPriceCondition where
  type : String
  gasPriceThreshold : Int
deriving Repr, DecidableEq

/-- The `conditions` sub-document of a Task: a `conditionType` tag plus the
optional per-type parameter objects. -/
structure Conditions where
  conditionType : String
  priceCondition : Option PriceCondition
  balanceCondition : Option BalanceCondition
  gasPriceCondition : Option GasPriceCondition
deriving Repr, DecidableEq

/-- External world as seen by one condition check. `ethPrice` and `gasPrice`
model `BlockchainService.getETHPrice` / `getGasPrice` (an `Except.error`
models the awaited call throwing). `getBalance` models
`BlockchainService.getBalance` for a given address. `taskUser` is the result
of resolving the owning user of the task (`Task.findById` then
`User.findById`): `none` when either lookup fails. -/
structure ChainEnv where
  ethPrice : Except String Int
  gasPrice : Except String Int
  getBalance : String → Except String Int
  taskUser : Option String

/-- Embedding of `BlockchainService.isETHTransferConditionMet`. The whole
body of the source function is wrapped in a try/catch that returns `false`,
so a failing fetch (modelled as `Except.error`) yields `false`. All numeric
comparisons are BigInt comparisons in the source, exact on `Int` here. -/
def isETHTransferConditionMet (conditions : Conditions) (env : ChainEnv) : Bool :=
  match conditions.conditionType with
  | "price_threshold" =>
    match conditions.priceCondition with
    | none => false
    | some pc =>
      match env.ethPrice with
      | Except.error _ => false
      | Except.ok currentPrice =>
        if pc.type = "above" then decide (currentPrice ≥ pc.priceThreshold)
        else if pc.type = "below" then decide (currentPrice ≤ pc.priceThreshold)
        else false
  | "balance_threshold" =>
    match conditions.balanceCondition with
    | none => false
    | some bc =>
      match env.taskUser with
      | none => false
      | some address =>
        match env.getBalance address with
        | Except.error _ => false
        | Except.ok balance =>
          if bc.type = "above" then decide (balance ≥ bc.balanceThreshold)
          else if bc.type = "below" then decide (balance ≤ bc.balanceThreshold)
          else false
  | "gas_price" =>
    match conditions.gasPriceCondition with
    | none => false
    | some gc =>
      match env.gasPrice with
      | Except.error _ => false
      | Except.ok gasPrice =>
        if gc.type = "below" then decide (gasPrice ≤ gc.gasPriceThreshold)
        else false
  | "time_based" => false
  | _ => false

/-- One record of a task execution history, as pushed by
`TaskExecutionProcessor.executeTask`. -/
structure HistoryEntry where
  timestamp : Int
  action : String
  status : String
  transactionHash : Option String
  error : Option String
deriving Repr, DecidableEq

/-- The `configuration` sub-document of a Task; only the fields the embedded
worker reads. `executionType` distinguishes "one-time" from recurring tasks. -/
structure TaskConfiguration where
  executionType : String
  recipientAddress : Option String
  amount : Option String
deriving Repr, DecidableEq

/-- A persisted Task document (the fields read or written by the monitor and
the execution worker). `id` is the Mongo document id as a string. -/
structure Task where
  id : String
  userId : String
  type : String
  network : String
  status : String
  sessionKeyId : Option String
  conditions : Conditions
  configuration : TaskConfiguration
  executionHistory : List HistoryEntry
  lastCheckedAt : Option Int
  lastExecutedAt : Option Int
  nextCheckAt : Int
deriving Repr, DecidableEq

/-- Embedding of `handleETHTransferCondition` in TaskMonitorProcessor.ts: the
session-key guard followed by the same switch over `conditions.conditionType`
as in `BlockchainService.isETHTransferConditionMet`. There too the body sits
in a try/catch returning `false`, so a throwing fetch yields `false`; the
balance branch resolves the delegator via `User.findById(task.userId)`,
modelled by `env.taskUser`. -/
def handleETHTransferCondition (task : Task) (env : ChainEnv) : Bool :=
  if task.sessionKeyId.isNone then false
  else
    match task.conditions.conditionType with
    | "price_threshold" =>
      match task.conditions.priceCondition with
      | none => false
      | some pc =>
        match env.ethPrice with
        | Except.error _ => false
        | Except.ok ethPrice =>
          if pc.type = "above" then decide (ethPrice ≥ pc.priceThreshold)
          else if pc.type = "below" then decide (ethPrice ≤ pc.priceThreshold)
          else false
    | "balance_threshold" =>
      match task.conditions.balanceCondition with
      | none => false
      | some bc =>
        match env.taskUser with
        | none => false
        | some address =>
          match env.getBalance address with
          | Except.error _ => false
          | Except.ok balance =>
            if bc.type = "above" then decide (balance ≥ bc.balanceThreshold)
            else if bc.type = "below" then decide (balance ≤ bc.balanceThreshold)
            else false
    | "gas_price" =>
      match task.conditions.gasPriceCondition with
      | none => false
      | some gc =>
        match env.gasPrice with
        | Except.error _ => false
        | Except.ok gasPrice =>
          if gc.type = "below" then decide (gasPrice ≤ gc.gasPriceThreshold)
          else false
    | "time_based" => false
    | _ => false

/-- The message placed on the execution queue:
`{taskId, taskType, network}`. -/
structure ExecutionJob where
  taskId : String
  taskType : String
  network : String
deriving Repr, DecidableEq

/-- Embedding of the `Task.find` query at the top of
`monitorTaskConditions`: active eth-transfer tasks on sepolia whose
`nextCheckAt` is not in the future. The spec names this operation
`findDueTasks`. -/
def findDueTasks (tasks : List Task) (now : Int) : List Task :=
  tasks.filter (fun t =>
    t.type = "eth-transfer" && t.status = "active" && t.network = "sepolia" &&
    decide (t.nextCheckAt ≤ now))

/-- Embedding of one iteration of the per-task loop in
`monitorTaskConditions`. Returns the saved task together with the job queued
on the execution queue, if any.

`outerFail` models an exception thrown by `executionQueue.add` or
`task.save` inside the try block; the catch block then overwrites both
`lastCheckedAt` and `nextCheckAt` (15 minutes) and saves, so the final saved
state is that of the catch block (a job already accepted by the queue before
the failure is not tracked here). When the met branch completes, only
`lastCheckedAt` is written; when the not-met branch completes,
`nextCheckAt` is moved 5 minutes ahead. The task status is written by no
branch. -/
def monitorStep (task : Task) (env : ChainEnv) (outerFail : Bool) (now : Int) :
    Task × Option ExecutionJob :=
  if outerFail then
    ({ task with lastCheckedAt := some now, nextCheckAt := now + 15 * 60 * 1000 }, none)
  else if handleETHTransferCondition task env then
    ({ task with lastCheckedAt := some now },
     some { taskId := task.id, taskType := "eth-transfer", network := "sepolia" })
  else
    ({ task with lastCheckedAt := some now, nextCheckAt := now + 5 * 60 * 1000 }, none)

/-- Status constants of task.model.ts (`enum TaskStatus`). -/
def TaskStatus.ACTIVE : String := "active"

def TaskStatus.PAUSED : String := "paused"

def TaskStatus.COMPLETED : String := "completed"

def TaskStatus.FAILED : String := "failed"

def TaskStatus.PENDING : String := "pending"

/-- A task document of the meta-pilot-backend sub-project, restricted to the
fields `scheduler.scheduleTask` reads. -/
structure STask where
  taskId : String
  walletAddress : String
  userId : String
  rules : List String
  metadata : String
  type : String
  status : String
deriving Repr, DecidableEq

/-- Payload handed to `enqueueTask` by `scheduleTask`. -/
structure QueueJobPayload where
  taskId : String
  walletAddress : String
  userId : String
  rules : List String
  metadata : String
  type : String
deriving Repr, DecidableEq

/-- Embedding of `scheduler.scheduleTask` of the meta-pilot-backend
sub-project: a task whose status is not `TaskStatus.ACTIVE` is skipped
(`none`, nothing enqueued); otherwise its payload is submitted to the queue.
The source also returns false when `enqueueTask` itself throws, after the
submission attempt; that failure mode does not affect which tasks are
offered to the queue and is not modelled. -/
def scheduleTask (task : STask) : Option QueueJobPayload :=
  if task.status ≠ TaskStatus.ACTIVE then none
  else some
    { taskId := task.taskId
      walletAddress := task.walletAddress
      userId := task.userId
      rules := task.rules
      metadata := task.metadata
      type := task.type }

/-- Outcome of `executeETHTransfer` (which catches its own errors and always
returns a result object with a `success` flag). -/
structure ExecResult where
  success : Bool
  transactionHash : Option String
  error : Option String
deriving Repr, DecidableEq

/-- External collaborators of one `executeTask` run: whether
`User.findById(task.userId)` resolves, and the result the blockchain /
AI-bridge collaborator returns for the transfer. -/
structure ExecEnv where
  userFound : Bool
  result : ExecResult
deriving Repr, DecidableEq

/-- The persistent collection of Task documents. -/
abbrev TaskStore := List Task

/-- Embedding of `Task.findById` / `Task.findOne({taskId})`: first document
whose id matches. -/
def findTask : TaskStore → String → Option Task
  | [], _ => none
  | t :: rest, i => if t.id = i then some t else findTask rest i

/-- Embedding of `task.save()`: replace the documents carrying the id of the
saved task. -/
def updateTask : TaskStore → Task → TaskStore
  | [], _ => []
  | u :: rest, t => (if u.id = t.id then t else u) :: updateTask rest t

/-- Embedding of `TaskExecutionProcessor.executeTask`. A thrown error is an
`Except.error` carrying the message; the enclosing catch logs and rethrows,
so errors escape to the queue unchanged and nothing is saved on the error
path. On the happy path the saved store is returned. A task that is no
longer active is skipped with a plain return (`Except.ok` with the store
untouched). -/
def executeTask (store : TaskStore) (job : ExecutionJob) (env : ExecEnv) (now : Int) :
    Except String TaskStore :=
  match findTask store job.taskId with
  | none => Except.error ("Task " ++ job.taskId ++ " not found")
  | some task =>
    if task.status ≠ "active" then Except.ok store
    else if env.userFound = false then
      Except.error ("User for task " ++ job.taskId ++ " not found")
    else if task.sessionKeyId.isNone then
      Except.error ("Task " ++ job.taskId ++ " has no session key")
    else if job.taskType ≠ "eth-transfer" then
      Except.error ("Unsupported task type: " ++ job.taskType)
    else
      let r := env.result
      let historyEntry : HistoryEntry :=
        { timestamp := now
          action := "Execute " ++ job.taskType
          status := if r.success then "success" else "failed"
          transactionHash := r.transactionHash
          error := r.error }
      let saved : Task :=
        { task with
          executionHistory := task.executionHistory ++ [historyEntry]
          lastExecutedAt := some now
          status :=
            if task.configuration.executionType = "one-time" ∧ r.success = true
            then "completed" else task.status }
      Except.ok (updateTask store saved)

/-- One delivery of an execution job to the worker, with the collaborator
responses and the wall clock at that moment. -/
structure JobEvent where
  job : ExecutionJob
  env : ExecEnv
  now : Int
deriving Repr, DecidableEq

/-- Effect of one job delivery on the store: a worker run that throws leaves
the store untouched (the queue retries the job later). -/
def runJob (store : TaskStore) (e : JobEvent) : TaskStore :=
  match executeTask store e.job e.env e.now with
  | Except.ok s => s
  | Except.error _ => store

/-- Effect of a sequence of job deliveries, in order. -/
def runJobs (store : TaskStore) (events : List JobEvent) : TaskStore :=
  events.foldl runJob store

/-- Number of execution history records of a task with status
`success`. -/
def countSuccess (task : Task) : Nat :=
  (task.executionHistory.filter (fun h => h.status = "success")).length

/-! Concrete sample data used by witnesses and counterexamples. -/

/-- A gas price condition: trigger below 20 gwei. -/
def gasCond20 : Conditions :=
  { conditionType := "gas_price"
    priceCondition := none
    balanceCondition := none
    gasPriceCondition := some { type := "below", gasPriceThreshold := 20000000000 } }

/-- Environment where only the gas price fetch succeeds, returning `g`. -/
def gasEnv (g : Int) : ChainEnv :=
  { ethPrice := Except.error "not fetched"
    gasPrice := Except.ok g
    getBalance := fun _ => Except.error "not fetched"
    taskUser := none }

/-- A price condition: trigger below 3000, reference price 3150. -/
def priceCondBelow3000 : Conditions :=
  { conditionType := "price_threshold"
    priceCondition := some { type := "below", priceThreshold := 3000, referencePrice := some 3150 }
    balanceCondition := none
    gasPriceCondition := none }

/-- Environment where only the ETH price fetch succeeds, returning `p`. -/
def priceEnv (p : Int) : ChainEnv :=
  { ethPrice := Except.ok p
    gasPrice := Except.error "not fetched"
    getBalance := fun _ => Except.error "not fetched"
    taskUser := none }

/-- Environment where every fetch fails, and the balance lookup of the task
owner succeeds with balance `b`. -/
def balanceEnv (b : Int) : ChainEnv :=
  { ethPrice := Except.error "not fetched"
    gasPrice := Except.error "not fetched"
    getBalance := fun _ => Except.ok b
    taskUser := some "0xdelegator" }

/-- Environment in which every data gateway fetch throws (for example a
network timeout). -/
def fetchFailEnv : ChainEnv :=
  { ethPrice := Except.error "timeout"
    gasPrice := Except.error "timeout"
    getBalance := fun _ => Except.error "timeout"
    taskUser := none }

/-- Builds an active eth-transfer task on sepolia with the given id,
conditions, execution type and next check time. -/
def mkTask (i : String) (c : Conditions) (executionType : String) (next : Int) : Task :=
  { id := i
    userId := "u1"
    type := "eth-transfer"
    network := "sepolia"
    status := "active"
    sessionKeyId := some "0xsessionkey"
    conditions := c
    configuration :=
      { executionType := executionType
        recipientAddress := some "0xrecipient"
        amount := some "0.1" }
    executionHistory := []
    lastCheckedAt := none
    lastExecutedAt := none
    nextCheckAt := next }

/-! Theorems. -/

/-- C1: for every task with a gas_price condition, only direction "below"
can trigger: with the gas price fetch returning `g`, the condition is met
if and only if the direction is "below" and `g` is at most
`gasPriceThreshold`; any other direction yields not-met. -/
theorem gas_price_only_below
    (conds : Conditions) (env : ChainEnv) (gc : GasPriceCondition) (g : Int)
    (hty : conds.conditionType = "gas_price")
    (hgc : conds.gasPriceCondition = some gc)
    (hg : env.gasPrice = Except.ok g) :
    isETHTransferConditionMet conds env = true ↔
      gc.type = "below" ∧ g ≤ gc.gasPriceThreshold := by
  unfold isETHTransferConditionMet
  rw [hty, hgc, hg]
  by_cases hb : gc.type = "below" <;> simp [hb]

/-- C1 witness: with threshold 20 gwei, current gas price 15 gwei is met and
25 gwei is not. -/
theorem gas_price_only_below_witness :
    isETHTransferConditionMet gasCond20 (gasEnv 15000000000) = true ∧
    isETHTransferConditionMet gasCond20 (gasEnv 25000000000) = false := by
  constructor
  · exact (gas_price_only_below gasCond20 (gasEnv 15000000000)
      { type := "below", gasPriceThreshold := 20000000000 } 15000000000
      rfl rfl rfl).mpr ⟨rfl, by decide⟩
  · have h := gas_price_only_below gasCond20 (gasEnv 25000000000)
      { type := "below", gasPriceThreshold := 20000000000 } 25000000000 rfl rfl rfl
    cases hb : isETHTransferConditionMet gasCond20 (gasEnv 25000000000)
    · rfl
    · exact absurd (h.mp hb).2 (by decide)

/-- C2: for every task with a price_threshold condition of direction "below"
and priceThreshold 3000, a fetched current price of 2900 yields met and a
fetched current price of 3100 yields not-met. -/
theorem price_threshold_below_3000
    (conds : Conditions) (pc : PriceCondition)
    (hty : conds.conditionType = "price_threshold")
    (hpc : conds.priceCondition = some pc)
    (hdir : pc.type = "below")
    (hth : pc.priceThreshold = 3000) :
    ∀ env : ChainEnv,
      (env.ethPrice = Except.ok 2900 → isETHTransferConditionMet conds env = true) ∧
      (env.ethPrice = Except.ok 3100 → isETHTransferConditionMet conds env = false) := by
  intro env
  constructor <;> intro hp <;>
    · unfold isETHTransferConditionMet
      rw [hty, hpc, hp]
      simp [hdir, hth]

/-- C2 witness: the round-trip scenario with reference price 3150. -/
theorem price_threshold_below_3000_witness :
    isETHTransferConditionMet priceCondBelow3000 (priceEnv 2900) = true ∧
    isETHTransferConditionMet priceCondBelow3000 (priceEnv 3100) = false := by
  constructor
  · exact (price_threshold_below_3000 priceCondBelow3000
      { type := "below", priceThreshold := 3000, referencePrice := some 3150 }
      rfl rfl rfl rfl (priceEnv 2900)).1 rfl
  · exact (price_threshold_below_3000 priceCondBelow3000
      { type := "below", priceThreshold := 3000, referencePrice := some 3150 }
      rfl rfl rfl rfl (priceEnv 3100)).2 rfl

/-- C10: threshold comparisons are inclusive at the boundary: when the
fetched value equals the threshold, a price_threshold or balance_threshold
condition is met both for direction "above" and for direction "below". -/
theorem threshold_boundary_inclusive :
    (∀ (conds : Conditions) (env : ChainEnv) (pc : PriceCondition) (v : Int),
      conds.conditionType = "price_threshold" →
      conds.priceCondition = some pc →
      env.ethPrice = Except.ok v →
      v = pc.priceThreshold →
      (pc.type = "above" → isETHTransferConditionMet conds env = true) ∧
      (pc.type = "below" → isETHTransferConditionMet conds env = true)) ∧
    (∀ (conds : Conditions) (env : ChainEnv) (bc : BalanceCondition) (a : String) (b : Int),
      conds.conditionType = "balance_threshold" →
      conds.balanceCondition = some bc →
      env.taskUser = some a →
      env.getBalance a = Except.ok b →
      b = bc.balanceThreshold →
      (bc.type = "above" → isETHTransferConditionMet conds env = true) ∧
      (bc.type = "below" → isETHTransferConditionMet conds env = true)) := by
  constructor
  · intro conds env pc v hty hpc hp hv
    constructor <;> intro hdir <;>
      · unfold isETHTransferConditionMet
        rw [hty, hpc, hp]
        simp [hdir, hv]
  · intro conds env bc a b hty hbc hu hb hv
    constructor <;> intro hdir <;>
      · unfold isETHTransferConditionMet
        rw [hty, hbc, hu]
        simp [hb, hdir, hv]

/-- C10 witness: at price exactly 3000 an "above" condition and a "below"
condition both trigger, and likewise for a balance exactly at its
threshold. -/
theorem threshold_boundary_inclusive_witness :
    isETHTransferConditionMet
      { conditionType := "price_threshold"
        priceCondition := some { type := "above", priceThreshold := 3000, referencePrice := none }
        balanceCondition := none
        gasPriceCondition := none } (priceEnv 3000) = true ∧
    isETHTransferConditionMet
      { conditionType := "price_threshold"
        priceCondition := some { type := "below", priceThreshold := 3000, referencePrice := none }
        balanceCondition := none
        gasPriceCondition := none } (priceEnv 3000) = true ∧
    isETHTransferConditionMet
      { conditionType := "balance_threshold"
        priceCondition := none
        balanceCondition := some { type := "above", balanceThreshold := 500 }
        gasPriceCondition := none } (balanceEnv 500) = true ∧
    isETHTransferConditionMet
      { conditionType := "balance_threshold"
        priceCondition := none
        balanceCondition := some { type := "below", balanceThreshold := 500 }
        gasPriceCondition := none } (balanceEnv 500) = true := by
  refine ⟨?_, ?_, ?_, ?_⟩
  · exact ((threshold_boundary_inclusive.1 _ (priceEnv 3000)
      { type := "above", priceThreshold := 3000, referencePrice := none } 3000
      rfl rfl rfl rfl).1) rfl
  · exact ((threshold_boundary_inclusive.1 _ (priceEnv 3000)
      { type := "below", priceThreshold := 3000, referencePrice := none } 3000
      rfl rfl rfl rfl).2) rfl
  · exact ((threshold_boundary_inclusive.2 _ (balanceEnv 500)
      { type := "above", balanceThreshold := 500 } "0xdelegator" 500
      rfl rfl rfl rfl rfl).1) rfl
  · exact ((threshold_boundary_inclusive.2 _ (balanceEnv 500)
      { type := "below", balanceThreshold := 500 } "0xdelegator" 500
      rfl rfl rfl rfl rfl).2) rfl

/-- C3: a task whose status is not active is never selected by a poll cycle:
every task returned by the due-task query has status active (and a
nextCheckAt that is not in the future), and the per-task scheduling step of
the meta-pilot-backend scheduler enqueues nothing for a non-active task. -/
theorem non_active_never_selected :
    (∀ (tasks : List Task) (now : Int) (t : Task),
      t ∈ findDueTasks tasks now → t.status = "active" ∧ t.nextCheckAt ≤ now) ∧
    (∀ s : STask, s.status ≠ TaskStatus.ACTIVE → scheduleTask s = none) := by
  constructor
  · intro tasks now t ht
    unfold findDueTasks at ht
    rw [List.mem_filter] at ht
    have hp := ht.2
    simp only [Bool.and_eq_true, decide_eq_true_eq] at hp
    exact ⟨hp.1.1.2, hp.2⟩
  · intro s hs
    unfold scheduleTask
    rw [if_pos hs]

/-- C3 witness: a concrete active due task passes the query filter, and a
concrete paused task is skipped by the scheduling step. -/
theorem non_active_never_selected_witness :
    ((mkTask "t2" gasCond20 "recurring" 500).status = "active" ∧
      (mkTask "t2" gasCond20 "recurring" 500).nextCheckAt ≤ 1000) ∧
    scheduleTask
      { taskId := "s1", walletAddress := "0xw", userId := "u1", rules := [],
        metadata := "", type := "buy_token", status := "paused" } = none := by
  constructor
  · exact non_active_never_selected.1 [mkTask "t2" gasCond20 "recurring" 500] 1000
      (mkTask "t2" gasCond20 "recurring" 500) (by decide)
  · exact non_active_never_selected.2
      { taskId := "s1", walletAddress := "0xw", userId := "u1", rules := [],
        metadata := "", type := "buy_token", status := "paused" } (by decide)

/-- Helper: a price_threshold condition whose price fetch throws evaluates to
not-met, because handleETHTransferCondition catches the error and returns
false. -/
theorem handleETH_price_fetch_error (task : Task) (env : ChainEnv) (e : String)
    (hty : task.conditions.conditionType = "price_threshold")
    (he : env.ethPrice = Except.error e) :
    handleETHTransferCondition task env = false := by
  unfold handleETHTransferCondition
  cases hk : task.sessionKeyId.isNone
  · rw [if_neg (by simp [hk]), hty]
    cases hpc : task.conditions.priceCondition
    · simp
    · simp [he]
  · rw [if_pos (by simp [hk])]

/-- C6 counterexample: for an active task with a price_threshold condition,
a data gateway fetch failure during the condition check does NOT push
nextCheckAt further than the normal not-met reschedule: the scheduler
reschedules it 5 minutes ahead, exactly the not-met delay, not the
15-minute error delay. -/
theorem recoverable_error_counterexample :
    ((monitorStep (mkTask "t3" priceCondBelow3000 "recurring" 0) fetchFailEnv
        false 1000).1.nextCheckAt = 1000 + 5 * 60 * 1000) ∧
    ((1000 + 5 * 60 * 1000 : Int) ≠ 1000 + 15 * 60 * 1000) := by
  exact ⟨rfl, by decide⟩

/-- C6 amended: no branch of the per-task monitor step ever changes the
task status; a data gateway fetch failure is swallowed inside
handleETHTransferCondition and handled as condition-not-met, so the task is
rescheduled the normal 5 minutes ahead; only an error escaping the
condition handler (a queue add or save failure, `outerFail`) reaches the
catch block and gets the longer 15-minute reschedule. -/
theorem recoverable_error_amended :
    ∀ (task : Task) (env : ChainEnv) (outerFail : Bool) (now : Int),
      ((monitorStep task env outerFail now).1.status = task.status) ∧
      (outerFail = true →
        (monitorStep task env outerFail now).1.nextCheckAt = now + 15 * 60 * 1000) ∧
      (∀ e : String, outerFail = false →
        task.conditions.conditionType = "price_threshold" →
        env.ethPrice = Except.error e →
        (monitorStep task env outerFail now).1.nextCheckAt = now + 5 * 60 * 1000) := by
  intro task env outerFail now
  refine ⟨?_, ?_, ?_⟩
  · unfold monitorStep
    cases outerFail
    · cases hc : handleETHTransferCondition task env <;> simp [hc]
    · simp
  · intro ho
    subst ho
    unfold monitorStep
    simp
  · intro e ho hty he
    subst ho
    unfold monitorStep
    simp [handleETH_price_fetch_error task env e hty he]

/-- C6 witness: instantiation of the amended statement on a concrete task,
fetch failure and queue failure. -/
theorem recoverable_error_amended_witness :
    ((monitorStep (mkTask "t3" priceCondBelow3000 "recurring" 0) fetchFailEnv
        false 1000).1.status = "active") ∧
    ((monitorStep (mkTask "t3" priceCondBelow3000 "recurring" 0) fetchFailEnv
        true 1000).1.nextCheckAt = 1000 + 15 * 60 * 1000) ∧
    ((monitorStep (mkTask "t3" priceCondBelow3000 "recurring" 0) fetchFailEnv
        false 1000).1.nextCheckAt = 1000 + 5 * 60 * 1000) := by
  refine ⟨?_, ?_, ?_⟩
  · exact (recoverable_error_amended (mkTask "t3" priceCondBelow3000 "recurring" 0)
      fetchFailEnv false 1000).1
  · exact (recoverable_error_amended (mkTask "t3" priceCondBelow3000 "recurring" 0)
      fetchFailEnv true 1000).2.1 rfl
  · exact (recoverable_error_amended (mkTask "t3" priceCondBelow3000 "recurring" 0)
      fetchFailEnv false 1000).2.2 "timeout" rfl rfl rfl

/-- Helper: a condition type unknown to the evaluator falls into the default
case of the switch and evaluates to not-met. -/
theorem handleETH_unknown_type (task : Task) (env : ChainEnv)
    (h1 : task.conditions.conditionType ≠ "price_threshold")
    (h2 : task.conditions.conditionType ≠ "balance_threshold")
    (h3 : task.conditions.conditionType ≠ "gas_price")
    (h4 : task.conditions.conditionType ≠ "time_based") :
    handleETHTransferCondition task env = false := by
  unfold handleETHTransferCondition
  cases hk : task.sessionKeyId.isNone
  · rw [if_neg (by simp [hk])]
    split
    · exact absurd (by assumption) h1
    · exact absurd (by assumption) h2
    · exact absurd (by assumption) h3
    · exact absurd (by assumption) h4
    · rfl
  · rw [if_pos (by simp [hk])]

/-- A task whose condition type is the free-text tag "custom", which the
monitor does not know. -/
def customCondTask : Task :=
  mkTask "t4"
    { conditionType := "custom"
      priceCondition := none
      balanceCondition := none
      gasPriceCondition := none } "recurring" 0

/-- C7 counterexample: a monitor pass over an active task with an unknown
condition type leaves its status "active" — the task never transitions to
"failed". -/
theorem unknown_rule_type_counterexample :
    ((monitorStep customCondTask fetchFailEnv false 1000).1.status = "active") ∧
    ("active" : String) ≠ "failed" := by
  exact ⟨rfl, by decide⟩

/-- C7 amended: a condition type unknown to the monitor (none of
price_threshold, balance_threshold, gas_price, time_based) falls into the
default switch case and is treated as condition-not-met: the task keeps its
status, is rescheduled 5 minutes ahead, and nothing is enqueued; no code
path of the monitor transitions a task to "failed". -/
theorem unknown_rule_type_amended
    (task : Task) (env : ChainEnv) (now : Int)
    (h1 : task.conditions.conditionType ≠ "price_threshold")
    (h2 : task.conditions.conditionType ≠ "balance_threshold")
    (h3 : task.conditions.conditionType ≠ "gas_price")
    (h4 : task.conditions.conditionType ≠ "time_based") :
    (monitorStep task env false now).1.status = task.status ∧
    (monitorStep task env false now).1.nextCheckAt = now + 5 * 60 * 1000 ∧
    (monitorStep task env false now).2 = none := by
  unfold monitorStep
  simp [handleETH_unknown_type task env h1 h2 h3 h4]

/-- C7 witness: instantiation on the concrete "custom" task. -/
theorem unknown_rule_type_amended_witness :
    (monitorStep customCondTask fetchFailEnv false 2000).1.status = "active" ∧
    (monitorStep customCondTask fetchFailEnv false 2000).1.nextCheckAt = 2000 + 5 * 60 * 1000 ∧
    (monitorStep customCondTask fetchFailEnv false 2000).2 = none := by
  exact unknown_rule_type_amended customCondTask fetchFailEnv 2000
    (by decide) (by decide) (by decide) (by decide)

/-- C8 counterexample: in the condition-met branch the monitor updates
lastCheckedAt but leaves nextCheckAt untouched, so a due task (nextCheckAt
in the past) violates nextCheckAt ≥ lastCheckedAt right after the update. -/
theorem schedule_invariant_counterexample :
    ((monitorStep (mkTask "t5" gasCond20 "recurring" 0) (gasEnv 15000000000)
        false 1000).1.lastCheckedAt = some 1000) ∧
    ((monitorStep (mkTask "t5" gasCond20 "recurring" 0) (gasEnv 15000000000)
        false 1000).1.nextCheckAt = 0) ∧
    ¬ ((1000 : Int) ≤ 0) := by
  refine ⟨rfl, rfl, by decide⟩

/-- C8 amended: after a not-met update and after a check-error update the
stored task satisfies nextCheckAt ≥ lastCheckedAt (both are set from the
same current time, with the new nextCheckAt 5 or 15 minutes later); after a
condition-met update, nextCheckAt is left unchanged and the invariant can
fail. -/
theorem schedule_invariant_amended :
    ∀ (task : Task) (env : ChainEnv) (outerFail : Bool) (now : Int),
      (outerFail = true ∨ handleETHTransferCondition task env = false →
        (monitorStep task env outerFail now).1.lastCheckedAt = some now ∧
        now ≤ (monitorStep task env outerFail now).1.nextCheckAt) ∧
      (outerFail = false → handleETHTransferCondition task env = true →
        (monitorStep task env outerFail now).1.nextCheckAt = task.nextCheckAt) := by
  intro task env outerFail now
  constructor
  · intro h
    cases outerFail
    · rcases h with h | h
      · exact absurd h (by decide)
      · unfold monitorStep
        simp [h]
    · unfold monitorStep
      simp
  · intro ho hc
    subst ho
    unfold monitorStep
    simp [hc]

/-- C8 witness: instantiation on a concrete not-met check. -/
theorem schedule_invariant_amended_witness :
    ((monitorStep (mkTask "t5" gasCond20 "recurring" 0) (gasEnv 25000000000)
        false 1000).1.lastCheckedAt = some 1000) ∧
    ((1000 : Int) ≤ (monitorStep (mkTask "t5" gasCond20 "recurring" 0)
        (gasEnv 25000000000) false 1000).1.nextCheckAt) := by
  exact (schedule_invariant_amended (mkTask "t5" gasCond20 "recurring" 0)
    (gasEnv 25000000000) false 1000).1 (Or.inr (by decide))

/-- C5: when the on-chain action succeeds, the worker appends a history
record with status success and the transaction hash, sets lastExecutedAt,
and marks one-time tasks completed while a recurring task keeps its
status. -/
theorem executeTask_success_bookkeeping
    (store : TaskStore) (job : ExecutionJob) (env : ExecEnv) (now : Int) (task : Task)
    (hfind : findTask store job.taskId = some task)
    (hact : task.status = "active")
    (huser : env.userFound = true)
    (hkey : task.sessionKeyId.isNone = false)
    (htype : job.taskType = "eth-transfer")
    (hsucc : env.result.success = true) :
    executeTask store job env now = Except.ok (updateTask store
      { task with
        executionHistory := task.executionHistory ++
          [{ timestamp := now
             action := "Execute eth-transfer"
             status := "success"
             transactionHash := env.result.transactionHash
             error := env.result.error }]
        lastExecutedAt := some now
        status := if task.configuration.executionType = "one-time"
                  then "completed" else task.status }) := by
  unfold executeTask
  rw [hfind]
  simp only [hact, huser, hkey, htype, hsucc]
  simp

/-- A job delivery whose transfer succeeds, used by several witnesses. -/
def successEnv : ExecEnv :=
  { userFound := true
    result := { success := true, transactionHash := some "0xdeadbeef", error := none } }

/-- The execution queue message for task t1. -/
def jobT1 : ExecutionJob :=
  { taskId := "t1", taskType := "eth-transfer", network := "sepolia" }

/-- A concrete one-time task with id t1 and an empty history. -/
def oneTimeTaskDemo : Task := mkTask "t1" gasCond20 "one-time" 0

/-- C5 witness: instantiation on the concrete one-time task; the saved task
carries the appended success record, lastExecutedAt, and status
completed. -/
theorem executeTask_success_bookkeeping_witness :
    executeTask [oneTimeTaskDemo] jobT1 successEnv 2000 = Except.ok (updateTask [oneTimeTaskDemo]
      { oneTimeTaskDemo with
        executionHistory := oneTimeTaskDemo.executionHistory ++
          [{ timestamp := 2000
             action := "Execute eth-transfer"
             status := "success"
             transactionHash := successEnv.result.transactionHash
             error := successEnv.result.error }]
        lastExecutedAt := some 2000
        status := if oneTimeTaskDemo.configuration.executionType = "one-time"
                  then "completed" else oneTimeTaskDemo.status }) := by
  exact executeTask_success_bookkeeping [oneTimeTaskDemo] jobT1 successEnv 2000
    oneTimeTaskDemo rfl rfl rfl rfl rfl rfl

/-- C9 counterexample: a job whose task is absent from the store makes
executeTask raise (the thrown error is logged and rethrown), rather than
completing gracefully. -/
theorem missing_task_counterexample :
    executeTask [] jobT1 successEnv 0 = Except.error "Task t1 not found" := rfl

/-- C9 amended: when the task of a job no longer exists at dequeue time, the
worker writes no history and attempts no transaction (the store is left
exactly as it was), but its process function throws the not-found error,
which the queue receives for retry, instead of returning as a graceful
no-op. -/
theorem executeTask_missing_task_throws
    (store : TaskStore) (job : ExecutionJob) (env : ExecEnv) (now : Int)
    (h : findTask store job.taskId = none) :
    executeTask store job env now = Except.error ("Task " ++ job.taskId ++ " not found") ∧
    runJob store { job := job, env := env, now := now } = store := by
  constructor
  · unfold executeTask
    rw [h]
  · unfold runJob executeTask
    simp only [h]

/-- C9 witness: instantiation on the empty store. -/
theorem executeTask_missing_task_throws_witness :
    executeTask [] jobT1 successEnv 5 = Except.error ("Task " ++ jobT1.taskId ++ " not found") ∧
    runJob [] { job := jobT1, env := successEnv, now := 5 } = [] := by
  exact executeTask_missing_task_throws [] jobT1 successEnv 5 rfl

/-- Helper: a found task carries the id it was looked up by. -/
theorem findTask_some_id (store : TaskStore) (i : String) (t : Task)
    (h : findTask store i = some t) : t.id = i := by
  induction store with
  | nil => simp [findTask] at h
  | cons u rest ih =>
    simp only [findTask] at h
    by_cases hu : u.id = i
    · rw [if_pos hu] at h
      injection h with h2
      exact h2 ▸ hu
    · rw [if_neg hu] at h
      exact ih h

/-- Helper: saving a task with a different id leaves a lookup unchanged. -/
theorem findTask_updateTask_ne (t : Task) (i : String) (h : ¬ (t.id = i)) :
    ∀ store : TaskStore, findTask (updateTask store t) i = findTask store i := by
  intro store
  induction store with
  | nil => rfl
  | cons u rest ih =>
    simp only [updateTask, findTask]
    by_cases hu : u.id = t.id
    · rw [if_pos hu, if_neg h, if_neg (hu ▸ h : ¬ (u.id = i))]
      exact ih
    · rw [if_neg hu]
      by_cases hi : u.id = i
      · rw [if_pos hi, if_pos hi]
      · rw [if_neg hi, if_neg hi]
        exact ih

/-- Helper: saving a task whose id is present makes the lookup return the
saved document. -/
theorem findTask_updateTask_eq (t : Task) (i : String) (hid : t.id = i) :
    ∀ store : TaskStore, (findTask store i).isSome = true →
      findTask (updateTask store t) i = some t := by
  intro store
  induction store with
  | nil => intro h; simp [findTask] at h
  | cons u rest ih =>
    intro h
    simp only [updateTask, findTask]
    by_cases hu : u.id = i
    · simp [hu.trans hid.symm, hid]
    · have h1 : ¬ (u.id = t.id) := fun hh => hu (hh.trans hid)
      simp only [if_neg h1, if_neg hu]
      apply ih
      simpa [findTask, hu] using h

/-- Invariant maintained by the execution worker for the task with id `i`:
it is a one-time task, it has at most one success record, and as soon as it
has one its status is no longer active. -/
def OneTimeInv (i : String) (store : TaskStore) : Prop :=
  ∀ t, findTask store i = some t →
    t.configuration.executionType = "one-time" ∧
    countSuccess t ≤ 1 ∧ (1 ≤ countSuccess t → t.status ≠ "active")

/-- Helper: unfolding of executeTask once the task lookup has resolved. -/
theorem executeTask_found (store : TaskStore) (job : ExecutionJob) (env : ExecEnv)
    (now : Int) (task : Task) (hf : findTask store job.taskId = some task) :
    executeTask store job env now =
      (if task.status ≠ "active" then Except.ok store
       else if env.userFound = false then
         Except.error ("User for task " ++ job.taskId ++ " not found")
       else if task.sessionKeyId.isNone = true then
         Except.error ("Task " ++ job.taskId ++ " has no session key")
       else if job.taskType ≠ "eth-transfer" then
         Except.error ("Unsupported task type: " ++ job.taskType)
       else Except.ok (updateTask store
        { task with
          executionHistory := task.executionHistory ++
            [{ timestamp := now
               action := "Execute " ++ job.taskType
               status := if env.result.success then "success" else "failed"
               transactionHash := env.result.transactionHash
               error := env.result.error }]
          lastExecutedAt := some now
          status :=
            if task.configuration.executionType = "one-time" ∧ env.result.success = true
            then "completed" else task.status })) := by
  unfold executeTask
  rw [hf]

/-- Helper: a worker run that saves yields the saved store. -/
theorem runJob_eq_of_ok (store : TaskStore) (e : JobEvent) (s : TaskStore)
    (h : executeTask store e.job e.env e.now = Except.ok s) : runJob store e = s := by
  unfold runJob
  rw [h]

/-- Helper: a worker run that throws leaves the store untouched. -/
theorem runJob_eq_of_error (store : TaskStore) (e : JobEvent) (msg : String)
    (h : executeTask store e.job e.env e.now = Except.error msg) :
    runJob store e = store := by
  unfold runJob
  rw [h]

/-- Helper: one job delivery preserves the one-time invariant: the worker
re-checks that the task is still active before executing and flips a
one-time task to completed on its first success. -/
theorem runJob_preserves_inv (i : String) (store : TaskStore) (e : JobEvent)
    (h : OneTimeInv i store) : OneTimeInv i (runJob store e) := by
  rcases hf : findTask store e.job.taskId with _ | task
  · have hrun : runJob store e = store := by
      unfold runJob executeTask
      rw [hf]
    rw [hrun]
    exact h
  · have hET := executeTask_found store e.job e.env e.now task hf
    by_cases hact : task.status = "active"
    case neg =>
      rw [if_pos hact] at hET
      rw [runJob_eq_of_ok store e store hET]
      exact h
    case pos =>
      rw [if_neg (by simp [hact])] at hET
      by_cases huser : e.env.userFound = false
      · rw [if_pos huser] at hET
        rw [runJob_eq_of_error store e _ hET]
        exact h
      · rw [if_neg huser] at hET
        by_cases hkey : task.sessionKeyId.isNone = true
        · rw [if_pos hkey] at hET
          rw [runJob_eq_of_error store e _ hET]
          exact h
        · rw [if_neg hkey] at hET
          by_cases htype : e.job.taskType = "eth-transfer"
          case neg =>
            rw [if_pos (by simp [htype] : e.job.taskType ≠ "eth-transfer")] at hET
            rw [runJob_eq_of_error store e _ hET]
            exact h
          case pos =>
            rw [if_neg (by simp [htype] : ¬ (e.job.taskType ≠ "eth-transfer"))] at hET
            rw [runJob_eq_of_ok store e _ hET]
            have hid : task.id = e.job.taskId := findTask_some_id store e.job.taskId task hf
            by_cases hi : task.id = i
            case neg =>
              intro t' hfind'
              rw [findTask_updateTask_ne _ i (by exact hi)] at hfind'
              exact h t' hfind'
            case pos =>
              have hfi : findTask store i = some task := by
                rw [← hid] at hf
                rw [← hi]
                exact hf
              obtain ⟨hone, hcount, hst⟩ := h task hfi
              have hc0 : countSuccess task = 0 := by
                by_contra hne
                exact (hst (Nat.one_le_iff_ne_zero.mpr hne)) hact
              intro t' hfind'
              rw [findTask_updateTask_eq _ i (by exact hi) store (by rw [hfi]; rfl)] at hfind'
              injection hfind' with ht'
              subst ht'
              cases hr : e.env.result.success
              case false =>
                have hlen : countSuccess
                    { task with
                      executionHistory := task.executionHistory ++
                        [{ timestamp := e.now
                           action := "Execute " ++ e.job.taskType
                           status := if false then "success" else "failed"
                           transactionHash := e.env.result.transactionHash
                           error := e.env.result.error }]
                      lastExecutedAt := some e.now
                      status :=
                        if task.configuration.executionType = "one-time" ∧ false = true
                        then "completed" else task.status } = countSuccess task := by
                  simp [countSuccess, List.filter_append]
                refine ⟨hone, ?_, ?_⟩
                · rw [hlen]
                  exact hcount
                · intro hge
                  rw [hlen, hc0] at hge
                  exact absurd hge (by omega)
              case true =>
                have hlen : countSuccess
                    { task with
                      executionHistory := task.executionHistory ++
                        [{ timestamp := e.now
                           action := "Execute " ++ e.job.taskType
                           status := if true then "success" else "failed"
                           transactionHash := e.env.result.transactionHash
                           error := e.env.result.error }]
                      lastExecutedAt := some e.now
                      status :=
                        if task.configuration.executionType = "one-time" ∧ true = true
                        then "completed" else task.status } = countSuccess task + 1 := by
                  simp [countSuccess, List.filter_append]
                refine ⟨hone, ?_, ?_⟩
                · rw [hlen, hc0]
                · intro hge
                  simp [hone]

/-- Helper: a sequence of job deliveries preserves the one-time
invariant. -/
theorem runJobs_preserves_inv (i : String) (events : List JobEvent) :
    ∀ store : TaskStore, OneTimeInv i store → OneTimeInv i (runJobs store events) := by
  induction events with
  | nil => intro store h; exact h
  | cons e rest ih =>
    intro store h
    have : runJobs store (e :: rest) = runJobs (runJob store e) rest := rfl
    rw [this]
    exact ih (runJob store e) (runJob_preserves_inv i store e h)

/-- C4: a one-time task that starts with no success record can never
accumulate more than one success record across any sequence of execution
job deliveries: the worker re-checks that the task is still active before
executing and completes it on the first success. -/
theorem one_time_at_most_one_success
    (store : TaskStore) (events : List JobEvent) (i : String) (t0 : Task)
    (h0 : findTask store i = some t0)
    (h1 : t0.configuration.executionType = "one-time")
    (h2 : countSuccess t0 = 0) :
    ∀ t, findTask (runJobs store events) i = some t → countSuccess t ≤ 1 := by
  have hinv : OneTimeInv i store := by
    intro t ht
    rw [h0] at ht
    injection ht with ht2
    subst ht2
    refine ⟨h1, by omega, fun hc => absurd hc (by rw [h2]; decide)⟩
  intro t ht
  exact ((runJobs_preserves_inv i events store hinv) t ht).2.1

/-- C4 witness: delivering the same successful job twice to a one-time task
leaves exactly one success record. -/
theorem one_time_at_most_one_success_witness :
    countSuccess ((findTask (runJobs [oneTimeTaskDemo]
      [{ job := jobT1, env := successEnv, now := 2000 },
       { job := jobT1, env := successEnv, now := 3000 }]) "t1").getD oneTimeTaskDemo) ≤ 1 := by
  have h := one_time_at_most_one_success [oneTimeTaskDemo]
    [{ job := jobT1, env := successEnv, now := 2000 },
     { job := jobT1, env := successEnv, now := 3000 }] "t1" oneTimeTaskDemo rfl rfl rfl
  exact h _ rfl

end MetaPilot
